import Mathlib

/-!
Shallow embedding of the lifecycle state machine of the kafka-benchmark-operator
charm: `src/benchmark/managers/lifecycle.py` (the `LifecycleManager` class and
the `_LifecycleState` subclasses), together with the peer-record lifecycle
accessor `PeerState.lifecycle` of `src/benchmark/core/models.py`.

Python exceptions (the `ValueError` raised by an enum lookup on an unknown
value, and the `ValueError("Unknown state")` raised by
`_LifecycleStateFactory.build`) are modelled with `Except String`.
The environment a decision pass reads (this unit's databag entry, the peers'
databag entries, `peers.test_name`, and the `ConfigManager` predicates and
operations) is snapshotted in a `LifecycleEnv` record: within one call the
code queries each collaborator afresh but nothing in the modelled pass mutates
them, so a fixed snapshot is faithful for a single `next` / `make_transition`
invocation.
-/

/-- Modelled from the spec: the `DPBenchmarkLifecycleState` enum of
`benchmark/literals.py` is absent from the sources (only its importers are
present). Members per the spec data model (section 3): UNSET, PREPARING,
AVAILABLE, RUNNING, FAILED, COLLECTING, UPLOADING, FINISHED, STOPPED — a
plain value-backed Python enum. -/
inductive DPBenchmarkLifecycleState where
  | UNSET
  | PREPARING
  | AVAILABLE
  | RUNNING
  | FAILED
  | COLLECTING
  | UPLOADING
  | FINISHED
  | STOPPED
deriving DecidableEq, Repr

/-- Modelled from the spec: the `DPBenchmarkLifecycleTransition` enum of
`benchmark/literals.py` (absent from the sources). Members per the spec data
model: PREPARE, RUN, STOP, CLEAN. -/
inductive DPBenchmarkLifecycleTransition where
  | PREPARE
  | RUN
  | STOP
  | CLEAN
deriving DecidableEq, Repr

/-- Modelled from the spec: the string `.value` backing each enum member
(the databag stores `new_state.value`, see lifecycle.py line 100). The exact
strings are not given by the sources under src/; only injectivity and the
round trip with the lookup below matter to the claims. -/
def DPBenchmarkLifecycleState.value : DPBenchmarkLifecycleState → String
  | .UNSET => "unset"
  | .PREPARING => "preparing"
  | .AVAILABLE => "available"
  | .RUNNING => "running"
  | .FAILED => "failed"
  | .COLLECTING => "collecting"
  | .UPLOADING => "uploading"
  | .FINISHED => "finished"
  | .STOPPED => "stopped"

/-- Modelled from the spec: the Python enum lookup
`DPBenchmarkLifecycleState(v)` — returns the member whose `.value` is `v`,
or `none` where Python raises `ValueError` (a plain `Enum` has no
`_missing_` hook). -/
def DPBenchmarkLifecycleState.ofValue :
    String → Option DPBenchmarkLifecycleState
  | "unset" => some .UNSET
  | "preparing" => some .PREPARING
  | "available" => some .AVAILABLE
  | "running" => some .RUNNING
  | "failed" => some .FAILED
  | "collecting" => some .COLLECTING
  | "uploading" => some .UPLOADING
  | "finished" => some .FINISHED
  | "stopped" => some .STOPPED
  | _ => none

/-- `PeerState.lifecycle` getter (models.py lines 178-183):
`DPBenchmarkLifecycleState(self.get(LIFECYCLE_KEY) or DPBenchmarkLifecycleState.UNSET)`.
A missing key (`none`) or an empty string is falsy in Python, so the enum
member UNSET is passed to the constructor and returned as-is; any other
string goes through the enum lookup, which raises `ValueError` on an unknown
value. -/
def PeerState.lifecycle (raw : Option String) :
    Except String DPBenchmarkLifecycleState :=
  match raw with
  | none => .ok .UNSET
  | some s =>
      if s = "" then .ok .UNSET
      else
        match DPBenchmarkLifecycleState.ofValue s with
        | some st => .ok st
        | none => .error "ValueError"

/-- Snapshot of everything one decision pass of the manager reads:
`selfLifecycle` is this unit's raw databag value for the lifecycle key,
`peerLifecycles` the raw values of the peer units returned by
`peers.units()` (which excludes this unit), `testName` is
`peers.test_name`, the `is_*` fields are the `ConfigManager` predicates and
the `*_ok` fields the success of the `ConfigManager` operations `run`,
`stop` and `clean` when invoked during the pass. -/
structure LifecycleEnv where
  selfLifecycle : Option String := none
  peerLifecycles : List (Option String) := []
  testName : Option String := none
  is_running : Bool := false
  is_failed : Bool := false
  is_prepared : Bool := false
  is_stopped : Bool := false
  is_cleaned : Bool := false
  run_ok : Bool := false
  stop_ok : Bool := false
  clean_ok : Bool := false
deriving DecidableEq, Repr

/-- `LifecycleManager.current` (lifecycle.py lines 32-37):
`self.peers.unit_state(self.peers.this_unit()).lifecycle or UNSET`.
The getter never returns a falsy value (enum members are truthy), so the
`or UNSET` is the identity; the getter may raise. -/
def LifecycleManager.current (e : LifecycleEnv) :
    Except String DPBenchmarkLifecycleState :=
  PeerState.lifecycle e.selfLifecycle

/-- The inner `_get_value` of `LifecycleManager._compare_lifecycle_states`
(lifecycle.py lines 175-193). -/
def LifecycleManager.get_value : DPBenchmarkLifecycleState → Int
  | .UNSET => 0
  | .PREPARING => 1
  | .AVAILABLE => 2
  | .RUNNING => 3
  | .FAILED => 4
  | .COLLECTING => 5
  | .UPLOADING => 6
  | .FINISHED => 7
  | .STOPPED => 8

/-- `LifecycleManager._compare_lifecycle_states` (lifecycle.py lines
164-195): 0 when equal, else the difference of the ordinals. -/
def LifecycleManager.compare_lifecycle_states
    (neighbor thisState : DPBenchmarkLifecycleState) : Int :=
  if neighbor = thisState then 0
  else LifecycleManager.get_value neighbor - LifecycleManager.get_value thisState

/-- The loop body of `LifecycleManager._peers_state` (lifecycle.py lines
116-121): each peer's raw value goes through the `PeerState.lifecycle`
getter (never `None`, possibly raising); the running maximum is replaced
when the neighbor compares strictly greater. -/
def LifecycleManager.peers_state_loop (cur : DPBenchmarkLifecycleState) :
    List (Option String) → Except String DPBenchmarkLifecycleState
  | [] => .ok cur
  | raw :: rest =>
      match PeerState.lifecycle raw with
      | .error err => .error err
      | .ok neighbor =>
          LifecycleManager.peers_state_loop
            (if LifecycleManager.compare_lifecycle_states neighbor cur > 0
             then neighbor else cur)
            rest

/-- `LifecycleManager._peers_state` (lifecycle.py lines 114-122): starts
from this unit's own record and folds the peers in; the final
`next_state or UNSET` is the identity because the getter only produces
truthy enum members. -/
def LifecycleManager.peers_state (e : LifecycleEnv) :
    Except String DPBenchmarkLifecycleState :=
  match PeerState.lifecycle e.selfLifecycle with
  | .error err => .error err
  | .ok s => LifecycleManager.peers_state_loop s e.peerLifecycles

/-- The seven `_LifecycleState` subclasses that `_LifecycleStateFactory.build`
can instantiate (lifecycle.py lines 418-446). -/
inductive LifecycleStateClass where
  | unsetC
  | preparingC
  | availableC
  | runningC
  | failedC
  | finishedC
  | stoppedC
deriving DecidableEq, Repr

/-- The `state` class attribute of each `_LifecycleState` subclass. -/
def LifecycleStateClass.state : LifecycleStateClass → DPBenchmarkLifecycleState
  | .unsetC => .UNSET
  | .preparingC => .PREPARING
  | .availableC => .AVAILABLE
  | .runningC => .RUNNING
  | .failedC => .FAILED
  | .finishedC => .FINISHED
  | .stoppedC => .STOPPED

/-- `_LifecycleStateFactory.build` (lifecycle.py lines 418-446): COLLECTING
and UPLOADING have no branch and fall through to
`raise ValueError("Unknown state")`. -/
def LifecycleStateFactory.build (state : DPBenchmarkLifecycleState) :
    Except String LifecycleStateClass :=
  match state with
  | .UNSET => .ok .unsetC
  | .PREPARING => .ok .preparingC
  | .AVAILABLE => .ok .availableC
  | .RUNNING => .ok .runningC
  | .FAILED => .ok .failedC
  | .FINISHED => .ok .finishedC
  | .STOPPED => .ok .stoppedC
  | .COLLECTING => .error "Unknown state"
  | .UPLOADING => .error "Unknown state"

/-- `_StoppedLifecycleState.next` (lifecycle.py lines 219-238). -/
def StoppedLifecycleState.next (e : LifecycleEnv)
    (transition : Option DPBenchmarkLifecycleTransition) :
    Except String (Option LifecycleStateClass) :=
  if e.testName = none then .ok (some .unsetC)
  else if transition = some .CLEAN then .ok (some .unsetC)
  else if e.is_running then .ok (some .runningC)
  else if transition = some .RUN then .ok (some .runningC)
  else if e.is_failed then .ok (some .failedC)
  else .ok none

/-- `_FailedLifecycleState.next` (lifecycle.py lines 246-262). -/
def FailedLifecycleState.next (e : LifecycleEnv)
    (transition : Option DPBenchmarkLifecycleTransition) :
    Except String (Option LifecycleStateClass) :=
  if e.testName = none then .ok (some .unsetC)
  else if transition = some .CLEAN then .ok (some .unsetC)
  else if e.is_running then .ok (some .runningC)
  else if transition = some .RUN then .ok (some .runningC)
  else .ok none

/-- `_FinishedLifecycleState.next` (lifecycle.py lines 270-292). -/
def FinishedLifecycleState.next (e : LifecycleEnv)
    (transition : Option DPBenchmarkLifecycleTransition) :
    Except String (Option LifecycleStateClass) :=
  if e.testName = none then .ok (some .unsetC)
  else if transition = some .CLEAN then .ok (some .unsetC)
  else if transition = some .STOP then .ok (some .stoppedC)
  else if e.is_running then .ok (some .runningC)
  else if transition = some .RUN then .ok (some .runningC)
  else if e.is_failed then .ok (some .failedC)
  else .ok none

/-- `_RunningLifecycleState.next` (lifecycle.py lines 300-329). -/
def RunningLifecycleState.next (e : LifecycleEnv)
    (transition : Option DPBenchmarkLifecycleTransition) :
    Except String (Option LifecycleStateClass) :=
  if e.testName = none then .ok (some .unsetC)
  else if transition = some .CLEAN then .ok (some .unsetC)
  else if transition = some .STOP then .ok (some .stoppedC)
  else
    match LifecycleManager.peers_state e with
    | .error err => .error err
    | .ok ps =>
        if LifecycleManager.compare_lifecycle_states ps .STOPPED = 0 then
          .ok (some .stoppedC)
        else if e.is_failed then .ok (some .failedC)
        else if ¬ e.is_running then .ok (some .finishedC)
        else .ok none

/-- `_AvailableLifecycleState.next` (lifecycle.py lines 337-359). -/
def AvailableLifecycleState.next (e : LifecycleEnv)
    (transition : Option DPBenchmarkLifecycleTransition) :
    Except String (Option LifecycleStateClass) :=
  if e.testName = none then .ok (some .unsetC)
  else if transition = some .CLEAN then .ok (some .unsetC)
  else if transition = some .RUN then .ok (some .runningC)
  else
    match LifecycleManager.peers_state e with
    | .error err => .error err
    | .ok ps =>
        if LifecycleManager.compare_lifecycle_states ps .RUNNING = 0 then
          .ok (some .runningC)
        else .ok none

/-- `_PreparingLifecycleState.next` (lifecycle.py lines 367-383). -/
def PreparingLifecycleState.next (e : LifecycleEnv)
    (transition : Option DPBenchmarkLifecycleTransition) :
    Except String (Option LifecycleStateClass) :=
  if e.testName = none then .ok (some .unsetC)
  else if transition = some .CLEAN then .ok (some .unsetC)
  else if e.is_failed then .ok (some .failedC)
  else if e.is_prepared then .ok (some .availableC)
  else .ok none

/-- `_UnsetLifecycleState.next` (lifecycle.py lines 391-415): PREPARE
returns PREPARING with no peer check; otherwise `_peers_state()` is
consulted twice (the source calls it twice; the environment is fixed
within a pass, so both calls see the same snapshot). -/
def UnsetLifecycleState.next (e : LifecycleEnv)
    (transition : Option DPBenchmarkLifecycleTransition) :
    Except String (Option LifecycleStateClass) :=
  if transition = some .PREPARE then .ok (some .preparingC)
  else
    match LifecycleManager.peers_state e with
    | .error err => .error err
    | .ok ps =>
        if LifecycleManager.compare_lifecycle_states ps .AVAILABLE = 0 then
          .ok (some .availableC)
        else
          match LifecycleManager.peers_state e with
          | .error err => .error err
          | .ok ps2 =>
              if LifecycleManager.compare_lifecycle_states ps2 .RUNNING = 0 then
                .ok (some .runningC)
              else .ok none

/-- Dispatch of `next` over the built `_LifecycleState` instance. -/
def LifecycleStateClass.next_of (cls : LifecycleStateClass)
    (e : LifecycleEnv)
    (transition : Option DPBenchmarkLifecycleTransition) :
    Except String (Option LifecycleStateClass) :=
  match cls with
  | .unsetC => UnsetLifecycleState.next e transition
  | .preparingC => PreparingLifecycleState.next e transition
  | .availableC => AvailableLifecycleState.next e transition
  | .runningC => RunningLifecycleState.next e transition
  | .failedC => FailedLifecycleState.next e transition
  | .finishedC => FinishedLifecycleState.next e transition
  | .stoppedC => StoppedLifecycleState.next e transition

/-- `LifecycleManager.next` (lifecycle.py lines 103-112): build the state
object for `current()`, call its `next`, and project `result.state if
result else None`. -/
def LifecycleManager.next (e : LifecycleEnv)
    (transition : Option DPBenchmarkLifecycleTransition) :
    Except String (Option DPBenchmarkLifecycleState) :=
  match LifecycleManager.current e with
  | .error err => .error err
  | .ok cur =>
      match LifecycleStateFactory.build cur with
      | .error err => .error err
      | .ok cls =>
          match LifecycleStateClass.next_of cls e transition with
          | .error err => .error err
          | .ok result => .ok (result.map LifecycleStateClass.state)

/-- Outcome of one `make_transition` call: the returned boolean, the value
written to this unit's databag lifecycle key (none when the call returned
early), and the `ConfigManager` operations invoked, in order. -/
structure MakeTransitionResult where
  ok : Bool
  committed : Option String
  calls : List String
deriving DecidableEq, Repr

/-- `LifecycleManager.make_transition` (lifecycle.py lines 39-101). The
body is a sequence of guards, each testing `new_state` against a distinct
state (UNSET; AVAILABLE; RUNNING; FAILED; FINISHED or STOPPED), so at most
one guard group fires and the sequence is a case split on `new_state`.
PREPARING, COLLECTING and UPLOADING have no guard (their blocks are
commented out in the source) and commit unconditionally. Short-circuit
evaluation: in `not is_x() and not op()` the operation runs only when the
predicate is false. -/
def LifecycleManager.make_transition (e : LifecycleEnv)
    (new_state : DPBenchmarkLifecycleState) : MakeTransitionResult :=
  match new_state with
  | .UNSET =>
      if ¬ e.is_stopped ∧ ¬ e.stop_ok then
        ⟨false, none, ["stop"]⟩
      else
        let calls0 := if e.is_stopped then [] else ["stop"]
        if ¬ e.is_cleaned ∧ ¬ e.clean_ok then
          ⟨false, none, calls0 ++ ["clean"]⟩
        else
          ⟨true, some (DPBenchmarkLifecycleState.value .UNSET),
            calls0 ++ (if e.is_cleaned then [] else ["clean"])⟩
  | .AVAILABLE =>
      if ¬ e.is_stopped ∧ ¬ e.stop_ok then
        ⟨false, none, ["stop"]⟩
      else
        ⟨true, some (DPBenchmarkLifecycleState.value .AVAILABLE),
          if e.is_stopped then [] else ["stop"]⟩
  | .RUNNING =>
      if ¬ e.is_running ∧ ¬ e.run_ok then
        ⟨false, none, ["run"]⟩
      else
        ⟨true, some (DPBenchmarkLifecycleState.value .RUNNING),
          if e.is_running then [] else ["run"]⟩
  | .FAILED =>
      if ¬ e.is_failed ∧ ¬ e.is_stopped ∧ ¬ e.stop_ok then
        ⟨false, none, ["stop"]⟩
      else
        ⟨true, some (DPBenchmarkLifecycleState.value .FAILED),
          if ¬ e.is_failed ∧ ¬ e.is_stopped then ["stop"] else []⟩
  | .FINISHED =>
      if ¬ e.is_stopped ∧ ¬ e.stop_ok then
        ⟨false, none, ["stop"]⟩
      else
        ⟨true, some (DPBenchmarkLifecycleState.value .FINISHED),
          if e.is_stopped then [] else ["stop"]⟩
  | .STOPPED =>
      if ¬ e.is_stopped ∧ ¬ e.stop_ok then
        ⟨false, none, ["stop"]⟩
      else
        ⟨true, some (DPBenchmarkLifecycleState.value .STOPPED),
          if e.is_stopped then [] else ["stop"]⟩
  | .PREPARING =>
      ⟨true, some (DPBenchmarkLifecycleState.value .PREPARING), []⟩
  | .COLLECTING =>
      ⟨true, some (DPBenchmarkLifecycleState.value .COLLECTING), []⟩
  | .UPLOADING =>
      ⟨true, some (DPBenchmarkLifecycleState.value .UPLOADING), []⟩

/-- Auxiliary view used only in statements: the list of parsed peer records,
propagating the first `ValueError` of the `PeerState.lifecycle` getter. -/
def parsePeerList :
    List (Option String) → Except String (List DPBenchmarkLifecycleState)
  | [] => .ok []
  | raw :: rest =>
      match PeerState.lifecycle raw with
      | .error err => .error err
      | .ok st =>
          match parsePeerList rest with
          | .error err => .error err
          | .ok sts => .ok (st :: sts)

/-- The comparison step of the `_peers_state` loop as a binary operation:
keep the running value unless the neighbor compares strictly greater. -/
def peersStep (cur nb : DPBenchmarkLifecycleState) : DPBenchmarkLifecycleState :=
  if LifecycleManager.compare_lifecycle_states nb cur > 0 then nb else cur

/-- Unit whose own record reads COLLECTING. -/
def eC1a : LifecycleEnv := { selfLifecycle := some "collecting" }

/-- Unit with an unwritten own record and one peer record holding a string
that is not a lifecycle value. -/
def eC1b : LifecycleEnv := { peerLifecycles := [some "bogus"] }

/-- Unit recorded RUNNING with an unwritten peer and a STOPPED peer. -/
def eC1w : LifecycleEnv :=
  { selfLifecycle := some "running",
    peerLifecycles := [none, some "stopped"],
    testName := some "t" }

/-- Unit with an unwritten own record (current UNSET) and a peer already
AVAILABLE. -/
def eC2 : LifecycleEnv := { peerLifecycles := [some "available"], testName := some "t" }

/-- Unit with every input at its default. -/
def eC2w : LifecycleEnv := {}

/-- Unit whose workload is not running and whose run operation fails. -/
def eC3w : LifecycleEnv := {}

/-- Unit recorded PREPARING, failed workload, but no test name set. -/
def eC4a : LifecycleEnv := { selfLifecycle := some "preparing", is_failed := true }

/-- Unit recorded RUNNING, failed workload, and a peer already STOPPED. -/
def eC4b : LifecycleEnv :=
  { selfLifecycle := some "running",
    peerLifecycles := [some "stopped"],
    testName := some "t",
    is_failed := true }

/-- Unit recorded PREPARING with a test name set and a failed workload. -/
def eC4w : LifecycleEnv :=
  { selfLifecycle := some "preparing", testName := some "t", is_failed := true }

/-- Unit with current state UNSET and no peers. -/
def eC5a : LifecycleEnv := { testName := some "t" }

/-- Unit with current state UNSET and a peer already AVAILABLE. -/
def eC5b : LifecycleEnv := { peerLifecycles := [some "available"], testName := some "t" }

/-- Unit recorded STOPPED. -/
def eC5w : LifecycleEnv := { selfLifecycle := some "stopped" }

/-- Unit with current state UNSET, a test name set and no peers. -/
def eC6a : LifecycleEnv := { testName := some "t" }

/-- Unit recorded AVAILABLE with a test name set and no peers. -/
def eC6b : LifecycleEnv := { selfLifecycle := some "available", testName := some "t" }

/-- Unit recorded RUNNING with a test name set. -/
def eC6w : LifecycleEnv := { selfLifecycle := some "running", testName := some "t" }

/-- Unit whose workload reports failed but not stopped, and whose stop
operation would fail. -/
def eC7 : LifecycleEnv := { is_failed := true }

/-- Unit whose workload reports neither failed nor stopped and whose stop
operation fails. -/
def eC7w : LifecycleEnv := {}

/-- Unit recorded RUNNING with an unwritten peer record and a STOPPED peer. -/
def eC8w : LifecycleEnv :=
  { selfLifecycle := some "running", peerLifecycles := [none, some "stopped"] }

/-- Unit recorded STOPPED with a test name set and a running workload. -/
def eC10w : LifecycleEnv :=
  { selfLifecycle := some "stopped", testName := some "t", is_running := true }

theorem compare_eq_zero_iff (a b : DPBenchmarkLifecycleState) :
    LifecycleManager.compare_lifecycle_states a b = 0 ↔ a = b := by
  cases a <;> cases b <;> decide

theorem compare_pos_iff (a b : DPBenchmarkLifecycleState) :
    LifecycleManager.compare_lifecycle_states a b > 0 ↔
      LifecycleManager.get_value b < LifecycleManager.get_value a := by
  cases a <;> cases b <;> decide

theorem get_value_le_peersStep_left (cur y : DPBenchmarkLifecycleState) :
    LifecycleManager.get_value cur ≤ LifecycleManager.get_value (peersStep cur y) := by
  unfold peersStep
  split
  · exact le_of_lt ((compare_pos_iff y cur).mp ‹_›)
  · exact le_refl _

theorem get_value_le_peersStep_right (cur y : DPBenchmarkLifecycleState) :
    LifecycleManager.get_value y ≤ LifecycleManager.get_value (peersStep cur y) := by
  unfold peersStep
  split
  · exact le_refl _
  · have h : ¬ LifecycleManager.get_value cur < LifecycleManager.get_value y :=
      fun hc => ‹¬ _› ((compare_pos_iff y cur).mpr hc)
    omega

theorem foldl_peersStep_mem (ts : List DPBenchmarkLifecycleState) :
    ∀ cur, ts.foldl peersStep cur ∈ cur :: ts := by
  induction ts with
  | nil => intro cur; simp
  | cons x ts ih =>
      intro cur
      simp only [List.foldl_cons]
      rcases List.mem_cons.mp (ih (peersStep cur x)) with h1 | h2
      · rw [h1]
        unfold peersStep
        split
        · exact List.mem_cons_of_mem _ (List.mem_cons_self _ _)
        · exact List.mem_cons_self _ _
      · exact List.mem_cons_of_mem _ (List.mem_cons_of_mem _ h2)

theorem le_foldl_peersStep (ts : List DPBenchmarkLifecycleState) :
    ∀ cur x, x ∈ cur :: ts →
      LifecycleManager.get_value x ≤
        LifecycleManager.get_value (ts.foldl peersStep cur) := by
  induction ts with
  | nil =>
      intro cur x hx
      simp only [List.mem_cons, List.not_mem_nil, or_false] at hx
      subst hx
      simp
  | cons y ts ih =>
      intro cur x hx
      simp only [List.foldl_cons]
      rcases List.mem_cons.mp hx with h1 | h2
      · subst h1
        exact le_trans (get_value_le_peersStep_left x y)
          (ih (peersStep x y) _ (List.mem_cons_self _ _))
      · rcases List.mem_cons.mp h2 with h3 | h4
        · subst h3
          exact le_trans (get_value_le_peersStep_right cur x)
            (ih (peersStep cur x) _ (List.mem_cons_self _ _))
        · exact ih (peersStep cur y) x (List.mem_cons_of_mem _ h4)

theorem parsePeerList_ok (l : List (Option String))
    (h : ∀ raw ∈ l, ∃ st, PeerState.lifecycle raw = .ok st) :
    ∃ ts, parsePeerList l = .ok ts := by
  induction l with
  | nil => exact ⟨[], rfl⟩
  | cons raw rest ih =>
      obtain ⟨st, hst⟩ := h raw (List.mem_cons_self _ _)
      obtain ⟨ts, hts⟩ := ih (fun r hr => h r (List.mem_cons_of_mem _ hr))
      exact ⟨st :: ts, by simp only [parsePeerList, hst, hts]⟩

theorem peers_state_loop_eq_foldl (l : List (Option String)) :
    ∀ (cur : DPBenchmarkLifecycleState) (ts : List DPBenchmarkLifecycleState),
    parsePeerList l = .ok ts →
    LifecycleManager.peers_state_loop cur l = .ok (ts.foldl peersStep cur) := by
  induction l with
  | nil =>
      intro cur ts h
      simp only [parsePeerList, Except.ok.injEq] at h
      subst h
      rfl
  | cons raw rest ih =>
      intro cur ts h
      cases hr : PeerState.lifecycle raw with
      | error err =>
          simp only [parsePeerList, hr] at h
          exact Except.noConfusion h
      | ok st =>
          cases hp : parsePeerList rest with
          | error err =>
              simp only [parsePeerList, hr, hp] at h
              exact Except.noConfusion h
          | ok sts =>
              simp only [parsePeerList, hr, hp, Except.ok.injEq] at h
              subst h
              simp only [LifecycleManager.peers_state_loop, hr, List.foldl_cons]
              exact ih (peersStep cur st) sts hp

theorem peers_state_eq (e : LifecycleEnv) (s : DPBenchmarkLifecycleState)
    (ts : List DPBenchmarkLifecycleState)
    (hs : PeerState.lifecycle e.selfLifecycle = .ok s)
    (hts : parsePeerList e.peerLifecycles = .ok ts) :
    LifecycleManager.peers_state e = .ok (ts.foldl peersStep s) := by
  simp only [LifecycleManager.peers_state, hs]
  exact peers_state_loop_eq_foldl _ s ts hts

theorem peers_state_ok (e : LifecycleEnv) (s : DPBenchmarkLifecycleState)
    (hs : PeerState.lifecycle e.selfLifecycle = .ok s)
    (h : ∀ raw ∈ e.peerLifecycles, ∃ st, PeerState.lifecycle raw = .ok st) :
    ∃ m, LifecycleManager.peers_state e = .ok m := by
  obtain ⟨ts, hts⟩ := parsePeerList_ok e.peerLifecycles h
  exact ⟨ts.foldl peersStep s, peers_state_eq e s ts hs hts⟩

/-- Claim C1 counterexample: the core does raise for recorded COLLECTING
(the factory falls through to `raise ValueError("Unknown state")`), and a
peer record holding an unknown string makes the `PeerState.lifecycle` enum
lookup raise `ValueError` instead of being treated as UNSET. -/
theorem claim_C1_counterexample :
    LifecycleManager.next eC1a none = .error "Unknown state" ∧
    LifecycleManager.next eC1b none = .error "ValueError" := ⟨rfl, rfl⟩

/-- Claim C1 amended: `LifecycleManager.next` returns a state or `None`
(never raises) for every transition whenever the recorded current state is
one of the seven factory-handled states (every state except COLLECTING and
UPLOADING) and every peer record is unwritten or holds a known
lifecycle-state value. -/
theorem unset_next_total (e : LifecycleEnv)
    (t : Option DPBenchmarkLifecycleTransition) (m : DPBenchmarkLifecycleState)
    (hm : LifecycleManager.peers_state e = .ok m) :
    ∃ r, UnsetLifecycleState.next e t = .ok r := by
  simp only [UnsetLifecycleState.next, hm]
  repeat' split
  all_goals exact ⟨_, rfl⟩

theorem running_next_total (e : LifecycleEnv)
    (t : Option DPBenchmarkLifecycleTransition) (m : DPBenchmarkLifecycleState)
    (hm : LifecycleManager.peers_state e = .ok m) :
    ∃ r, RunningLifecycleState.next e t = .ok r := by
  simp only [RunningLifecycleState.next, hm]
  repeat' split
  all_goals exact ⟨_, rfl⟩

theorem available_next_total (e : LifecycleEnv)
    (t : Option DPBenchmarkLifecycleTransition) (m : DPBenchmarkLifecycleState)
    (hm : LifecycleManager.peers_state e = .ok m) :
    ∃ r, AvailableLifecycleState.next e t = .ok r := by
  simp only [AvailableLifecycleState.next, hm]
  repeat' split
  all_goals exact ⟨_, rfl⟩

theorem preparing_next_total (e : LifecycleEnv)
    (t : Option DPBenchmarkLifecycleTransition) :
    ∃ r, PreparingLifecycleState.next e t = .ok r := by
  simp only [PreparingLifecycleState.next]
  repeat' split
  all_goals exact ⟨_, rfl⟩

theorem failed_next_total (e : LifecycleEnv)
    (t : Option DPBenchmarkLifecycleTransition) :
    ∃ r, FailedLifecycleState.next e t = .ok r := by
  simp only [FailedLifecycleState.next]
  repeat' split
  all_goals exact ⟨_, rfl⟩

theorem finished_next_total (e : LifecycleEnv)
    (t : Option DPBenchmarkLifecycleTransition) :
    ∃ r, FinishedLifecycleState.next e t = .ok r := by
  simp only [FinishedLifecycleState.next]
  repeat' split
  all_goals exact ⟨_, rfl⟩

theorem stopped_next_total (e : LifecycleEnv)
    (t : Option DPBenchmarkLifecycleTransition) :
    ∃ r, StoppedLifecycleState.next e t = .ok r := by
  simp only [StoppedLifecycleState.next]
  repeat' split
  all_goals exact ⟨_, rfl⟩

theorem claim_C1_amended (e : LifecycleEnv)
    (t : Option DPBenchmarkLifecycleTransition) (s : DPBenchmarkLifecycleState)
    (hcur : LifecycleManager.current e = .ok s)
    (hc : s ≠ .COLLECTING) (hu : s ≠ .UPLOADING)
    (hpeers : ∀ raw ∈ e.peerLifecycles, ∃ st, PeerState.lifecycle raw = .ok st) :
    ∃ r, LifecycleManager.next e t = .ok r := by
  have hsOk : PeerState.lifecycle e.selfLifecycle = .ok s := hcur
  obtain ⟨m, hm⟩ := peers_state_ok e s hsOk hpeers
  cases s
  case COLLECTING => exact absurd rfl hc
  case UPLOADING => exact absurd rfl hu
  case UNSET =>
      obtain ⟨r0, h0⟩ := unset_next_total e t m hm
      simp only [LifecycleManager.next, hcur, LifecycleStateFactory.build,
        LifecycleStateClass.next_of, h0]
      exact ⟨_, rfl⟩
  case PREPARING =>
      obtain ⟨r0, h0⟩ := preparing_next_total e t
      simp only [LifecycleManager.next, hcur, LifecycleStateFactory.build,
        LifecycleStateClass.next_of, h0]
      exact ⟨_, rfl⟩
  case AVAILABLE =>
      obtain ⟨r0, h0⟩ := available_next_total e t m hm
      simp only [LifecycleManager.next, hcur, LifecycleStateFactory.build,
        LifecycleStateClass.next_of, h0]
      exact ⟨_, rfl⟩
  case RUNNING =>
      obtain ⟨r0, h0⟩ := running_next_total e t m hm
      simp only [LifecycleManager.next, hcur, LifecycleStateFactory.build,
        LifecycleStateClass.next_of, h0]
      exact ⟨_, rfl⟩
  case FAILED =>
      obtain ⟨r0, h0⟩ := failed_next_total e t
      simp only [LifecycleManager.next, hcur, LifecycleStateFactory.build,
        LifecycleStateClass.next_of, h0]
      exact ⟨_, rfl⟩
  case FINISHED =>
      obtain ⟨r0, h0⟩ := finished_next_total e t
      simp only [LifecycleManager.next, hcur, LifecycleStateFactory.build,
        LifecycleStateClass.next_of, h0]
      exact ⟨_, rfl⟩
  case STOPPED =>
      obtain ⟨r0, h0⟩ := stopped_next_total e t
      simp only [LifecycleManager.next, hcur, LifecycleStateFactory.build,
        LifecycleStateClass.next_of, h0]
      exact ⟨_, rfl⟩

/-- Claim C1 witness: a RUNNING unit with an unwritten peer and a STOPPED
peer gets a non-raising answer from `next`. -/
theorem claim_C1_witness :
    ∃ r, LifecycleManager.next eC1w none = .ok r :=
  claim_C1_amended eC1w none .RUNNING rfl (by decide) (by decide)
    (by
      intro raw hr
      have hr2 : raw ∈ [none, some "stopped"] := hr
      simp only [List.mem_cons, List.not_mem_nil, or_false] at hr2
      rcases hr2 with h | h
      · subst h; exact ⟨.UNSET, rfl⟩
      · subst h; exact ⟨.STOPPED, rfl⟩)

/-- Claim C3: `make_transition(RUNNING)` calls the run operation exactly
when `is_running()` is false; if that call fails the function returns
false and commits nothing; it returns true only having verified the
workload running or having just started it, committing RUNNING. -/
theorem claim_C3 (e : LifecycleEnv) :
    (e.is_running = false →
      (LifecycleManager.make_transition e .RUNNING).calls = ["run"]) ∧
    (e.is_running = false → e.run_ok = false →
      LifecycleManager.make_transition e .RUNNING = ⟨false, none, ["run"]⟩) ∧
    ((LifecycleManager.make_transition e .RUNNING).ok = true →
      (LifecycleManager.make_transition e .RUNNING).committed =
        some (DPBenchmarkLifecycleState.value .RUNNING) ∧
      (e.is_running = true ∨ e.run_ok = true)) := by
  cases hr : e.is_running <;> cases ho : e.run_ok <;>
    simp [LifecycleManager.make_transition, hr, ho]

/-- Claim C3 witness: with the workload not running and a failing run
operation, `make_transition(RUNNING)` returns false, commits nothing, and
did call run. -/
theorem claim_C3_witness :
    LifecycleManager.make_transition eC3w .RUNNING = ⟨false, none, ["run"]⟩ :=
  (claim_C3 eC3w).2.1 rfl rfl

/-- Claim C7 counterexample: with the workload failed but not stopped (and
a stop operation that would fail), `make_transition(FAILED)` commits the
FAILED record and returns true — the claim requires failed AND stopped. -/
theorem claim_C7_counterexample :
    LifecycleManager.make_transition eC7 .FAILED =
      ⟨true, some (DPBenchmarkLifecycleState.value .FAILED), []⟩ ∧
    eC7.is_stopped = false := ⟨rfl, rfl⟩

/-- Claim C7 amended: `make_transition(FAILED)` is blocked (returns false
and commits nothing) exactly when the workload reports neither failed nor
stopped and the stop operation fails; in every other workload condition it
commits FAILED and returns true. -/
theorem claim_C7_amended (e : LifecycleEnv) :
    ((LifecycleManager.make_transition e .FAILED).ok = false ↔
      (e.is_failed = false ∧ e.is_stopped = false ∧ e.stop_ok = false)) ∧
    ((LifecycleManager.make_transition e .FAILED).ok = false →
      (LifecycleManager.make_transition e .FAILED).committed = none) ∧
    ((LifecycleManager.make_transition e .FAILED).ok = true →
      (LifecycleManager.make_transition e .FAILED).committed =
        some (DPBenchmarkLifecycleState.value .FAILED)) := by
  cases hf : e.is_failed <;> cases hs : e.is_stopped <;> cases ho : e.stop_ok <;>
    simp [LifecycleManager.make_transition, hf, hs, ho]

/-- Claim C7 witness: with nothing failed, nothing stopped and a failing
stop operation, `make_transition(FAILED)` returns false. -/
theorem claim_C7_witness :
    (LifecycleManager.make_transition eC7w .FAILED).ok = false :=
  (claim_C7_amended eC7w).1.mpr ⟨rfl, rfl, rfl⟩

/-- Claim C8: `_compare_lifecycle_states` is the ordinal difference under
UNSET=0 < PREPARING=1 < AVAILABLE=2 < RUNNING=3 < FAILED=4 < COLLECTING=5
< UPLOADING=6 < FINISHED=7 < STOPPED=8 (see `LifecycleManager.get_value`),
zero exactly on equal states; an unwritten record reads as UNSET; and
`_peers_state` returns the ordinal maximum over this unit's record and all
peer records. -/
theorem claim_C8 :
    (∀ a b, LifecycleManager.compare_lifecycle_states a b =
        LifecycleManager.get_value a - LifecycleManager.get_value b ∧
      (LifecycleManager.compare_lifecycle_states a b = 0 ↔ a = b)) ∧
    PeerState.lifecycle none = .ok .UNSET ∧
    (∀ (e : LifecycleEnv) (s : DPBenchmarkLifecycleState)
        (ts : List DPBenchmarkLifecycleState),
      PeerState.lifecycle e.selfLifecycle = .ok s →
      parsePeerList e.peerLifecycles = .ok ts →
      ∃ m, LifecycleManager.peers_state e = .ok m ∧ m ∈ s :: ts ∧
        ∀ x ∈ s :: ts,
          LifecycleManager.get_value x ≤ LifecycleManager.get_value m) := by
  refine ⟨?_, rfl, ?_⟩
  · intro a b
    exact ⟨by cases a <;> cases b <;> decide, compare_eq_zero_iff a b⟩
  · intro e s ts hs hts
    exact ⟨ts.foldl peersStep s, peers_state_eq e s ts hs hts,
      foldl_peersStep_mem ts s, fun x hx => le_foldl_peersStep ts s x hx⟩

/-- Claim C8 witness: a RUNNING unit with an unwritten peer and a STOPPED
peer aggregates to a maximum among RUNNING, UNSET, STOPPED. -/
theorem claim_C8_witness :
    ∃ m, LifecycleManager.peers_state eC8w = .ok m ∧
      m ∈ [DPBenchmarkLifecycleState.RUNNING, .UNSET, .STOPPED] ∧
      ∀ x ∈ [DPBenchmarkLifecycleState.RUNNING, .UNSET, .STOPPED],
        LifecycleManager.get_value x ≤ LifecycleManager.get_value m :=
  claim_C8.2.2 eC8w .RUNNING [.UNSET, .STOPPED] rfl rfl

/-- Claim C9: `make_transition(PREPARING)` invokes no workload operation,
unconditionally commits PREPARING to this unit's record, and returns true,
for every workload condition. -/
theorem claim_C9 (e : LifecycleEnv) :
    LifecycleManager.make_transition e .PREPARING =
      ⟨true, some (DPBenchmarkLifecycleState.value .PREPARING), []⟩ := rfl

/-- Claim C2 counterexample: with current state UNSET and the peer
aggregate already AVAILABLE (ahead of UNSET), `next(PREPARE)` still
returns PREPARING instead of rejecting the duplicate prepare. -/
theorem claim_C2_counterexample :
    LifecycleManager.peers_state eC2 = .ok .AVAILABLE ∧
    LifecycleManager.next eC2 (some .PREPARE) = .ok (some .PREPARING) :=
  ⟨rfl, rfl⟩

/-- Claim C2 amended: when the current state is UNSET, `next(PREPARE)`
returns PREPARING unconditionally — the UNSET state handles PREPARE before
any peer-aggregate check, so no duplicate-prepare rejection happens. -/
theorem claim_C2_amended (e : LifecycleEnv)
    (hcur : LifecycleManager.current e = .ok .UNSET) :
    LifecycleManager.next e (some .PREPARE) = .ok (some .PREPARING) := by
  simp only [LifecycleManager.next, hcur]
  rfl

/-- Claim C2 witness: a fresh unit (everything unset) moves to PREPARING
on the PREPARE transition. -/
theorem claim_C2_witness :
    LifecycleManager.next eC2w (some .PREPARE) = .ok (some .PREPARING) :=
  claim_C2_amended eC2w rfl

/-- Claim C4 counterexample: failure does not pre-empt every other rule —
with current PREPARING, workload failed but no test name set, `next(None)`
rolls back to UNSET; with current RUNNING, workload failed and a peer
aggregate STOPPED, `next(None)` converges to STOPPED, not FAILED. -/
theorem claim_C4_counterexample :
    (eC4a.is_failed = true ∧
      LifecycleManager.next eC4a none = .ok (some .UNSET)) ∧
    (eC4b.is_failed = true ∧
      LifecycleManager.next eC4b none = .ok (some .STOPPED)) :=
  ⟨⟨rfl, rfl⟩, ⟨rfl, rfl⟩⟩

/-- Claim C4 amended: with a test name set and the workload failed,
`next(None)` returns FAILED from PREPARING, and from RUNNING provided the
peer aggregate is readable and is not STOPPED; COLLECTING and UPLOADING
are not factory-handled, and the missing-test-name rollback and the
peer-STOPPED convergence take priority over the failure rule. -/
theorem claim_C4_amended (e : LifecycleEnv)
    (htn : e.testName ≠ none) (hf : e.is_failed = true) :
    (LifecycleManager.current e = .ok .PREPARING →
      LifecycleManager.next e none = .ok (some .FAILED)) ∧
    (∀ p, LifecycleManager.current e = .ok .RUNNING →
      LifecycleManager.peers_state e = .ok p → p ≠ .STOPPED →
      LifecycleManager.next e none = .ok (some .FAILED)) := by
  constructor
  · intro hcur
    simp [LifecycleManager.next, hcur, LifecycleStateFactory.build,
      LifecycleStateClass.next_of, PreparingLifecycleState.next,
      LifecycleStateClass.state, htn, hf]
  · intro p hcur hps hpstop
    have h0 : LifecycleManager.compare_lifecycle_states p .STOPPED ≠ 0 :=
      fun h => hpstop ((compare_eq_zero_iff p .STOPPED).mp h)
    simp [LifecycleManager.next, hcur, LifecycleStateFactory.build,
      LifecycleStateClass.next_of, RunningLifecycleState.next,
      LifecycleStateClass.state, htn, hf, hps, h0]

/-- Claim C4 witness: a PREPARING unit with a test name and a failed
workload passively moves to FAILED. -/
theorem claim_C4_witness :
    LifecycleManager.next eC4w none = .ok (some .FAILED) :=
  (claim_C4_amended eC4w (by decide) rfl).1 rfl

/-- Claim C5 counterexample: CLEAN is not handled by the UNSET state: with
current UNSET and no peers, `next(CLEAN)` returns None, and with a peer
aggregate AVAILABLE it follows the peers to AVAILABLE — not UNSET. -/
theorem claim_C5_counterexample :
    LifecycleManager.next eC5a (some .CLEAN) = .ok none ∧
    LifecycleManager.next eC5b (some .CLEAN) = .ok (some .AVAILABLE) :=
  ⟨rfl, rfl⟩

/-- Claim C5 amended: `next(CLEAN)` returns UNSET from each of the six
non-UNSET factory-handled states (PREPARING, AVAILABLE, RUNNING, FAILED,
FINISHED, STOPPED), regardless of peer view and workload condition; from
UNSET the CLEAN transition is not handled, and COLLECTING/UPLOADING raise
in the factory. -/
theorem claim_C5_amended (e : LifecycleEnv) (s : DPBenchmarkLifecycleState)
    (hcur : LifecycleManager.current e = .ok s)
    (hs : s ∈ [DPBenchmarkLifecycleState.PREPARING, .AVAILABLE, .RUNNING,
      .FAILED, .FINISHED, .STOPPED]) :
    LifecycleManager.next e (some .CLEAN) = .ok (some .UNSET) := by
  fin_cases hs <;>
    by_cases htn : e.testName = none <;>
      simp [LifecycleManager.next, hcur, LifecycleStateFactory.build,
        LifecycleStateClass.next_of, PreparingLifecycleState.next,
        AvailableLifecycleState.next, RunningLifecycleState.next,
        FailedLifecycleState.next, FinishedLifecycleState.next,
        StoppedLifecycleState.next, LifecycleStateClass.state, htn]

/-- Claim C5 witness: a STOPPED unit resets to UNSET on CLEAN. -/
theorem claim_C5_witness :
    LifecycleManager.next eC5w (some .CLEAN) = .ok (some .UNSET) :=
  claim_C5_amended eC5w .STOPPED rfl (by decide)

/-- Claim C6 counterexample: STOP does not yield STOPPED from every state —
with current UNSET (no peers) `next(STOP)` returns None, and with current
AVAILABLE it also returns None: only RUNNING and FINISHED handle STOP. -/
theorem claim_C6_counterexample :
    LifecycleManager.next eC6a (some .STOP) = .ok none ∧
    LifecycleManager.next eC6b (some .STOP) = .ok none :=
  ⟨rfl, rfl⟩

/-- Claim C6 amended: `next(STOP)` returns STOPPED from RUNNING and from
FINISHED when a test name is set; the other states do not handle the STOP
transition. -/
theorem claim_C6_amended (e : LifecycleEnv) (htn : e.testName ≠ none)
    (hcur : LifecycleManager.current e = .ok .RUNNING ∨
      LifecycleManager.current e = .ok .FINISHED) :
    LifecycleManager.next e (some .STOP) = .ok (some .STOPPED) := by
  rcases hcur with hcur | hcur <;>
    simp [LifecycleManager.next, hcur, LifecycleStateFactory.build,
      LifecycleStateClass.next_of, RunningLifecycleState.next,
      FinishedLifecycleState.next, LifecycleStateClass.state, htn]

/-- Claim C6 witness: a RUNNING unit with a test name moves to STOPPED on
the STOP transition. -/
theorem claim_C6_witness :
    LifecycleManager.next eC6w (some .STOP) = .ok (some .STOPPED) :=
  claim_C6_amended eC6w (by decide) (Or.inl rfl)

/-- Claim C10: STOPPED is not terminal: with a test name set and no
requested transition, a STOPPED unit re-enters RUNNING whenever the
workload reports running, and FAILED whenever the workload reports failed
while not running. -/
theorem claim_C10 (e : LifecycleEnv)
    (hcur : LifecycleManager.current e = .ok .STOPPED)
    (htn : e.testName ≠ none) :
    (e.is_running = true →
      LifecycleManager.next e none = .ok (some .RUNNING)) ∧
    (e.is_running = false → e.is_failed = true →
      LifecycleManager.next e none = .ok (some .FAILED)) := by
  constructor
  · intro hr
    simp [LifecycleManager.next, hcur, LifecycleStateFactory.build,
      LifecycleStateClass.next_of, StoppedLifecycleState.next,
      LifecycleStateClass.state, htn, hr]
  · intro hr hf
    simp [LifecycleManager.next, hcur, LifecycleStateFactory.build,
      LifecycleStateClass.next_of, StoppedLifecycleState.next,
      LifecycleStateClass.state, htn, hr, hf]

/-- Claim C10 witness: a STOPPED unit with a test name and a running
workload passively re-enters RUNNING. -/
theorem claim_C10_witness :
    LifecycleManager.next eC10w none = .ok (some .RUNNING) :=
  (claim_C10 eC10w rfl (by decide)).1 rfl
